import Mathlib

/-!
Shallow embedding of the document-load controller in `src/src/index.js`.

The module-level mutable variables `hasUnsavedAnnotations`, `isAlreadyLoaded`
and `destroyListener` become fields of an explicit `AppState`; the
`createOnAnnotationsChange` closure's captured `initialized` variable is the
`handlerInit` field (`none` while no change-observer is attached).  Side
effects (PSPDFKit.unload, PSPDFKit.load, console.error, window.confirm,
alert, the synthetic download link) become elements of an `Action` trace.
Because the browser tab is single-threaded, the top-level entry points
(drag-drop `onDrop`, the file-picker `change` listener, `callWs`,
`download`, and a firing of the `annotations.change` observer) are a `step`
function on `AppState`, parametrised by the outcomes of the asynchronous
operations (file read success, viewer-load promise resolution, fetch
success) and by the user's answer to the confirmation dialog.
-/

namespace PdfApp

/-- Byte buffers (ArrayBuffer contents) are lists of bytes. -/
abbrev Bytes := List Nat

/-- Observable side effects of the controller, in program order. -/
inductive Action where
  | unloadInstance : Action
  | createInstance (doc : Bytes) : Action
  | logError : Action
  | confirmPrompt : Action
  | alertMsg : Action
  | downloadFile (name : String) (content : Bytes) : Action
deriving DecidableEq, Repr

/-- The session state: the two module-level flags (index.js lines 17-18),
whether the drag-and-drop listener is still installed (`destroyListener`
is non-null, line 95/114), and the `initialized` variable captured by the
currently attached `annotations.change` observer (`none` when no observer
is attached). -/
structure AppState where
  hasUnsavedAnnotations : Bool
  isAlreadyLoaded : Bool
  dragDropActive : Bool
  handlerInit : Option Bool
deriving DecidableEq, Repr

/-- Initial state of the page: both flags false, drag-and-drop installed,
no viewer instance hence no observer. -/
def AppState.init : AppState :=
  { hasUnsavedAnnotations := false
    isAlreadyLoaded := false
    dragDropActive := true
    handlerInit := none }

/-- One firing of the observer built by `createOnAnnotationsChange`
(index.js lines 27-37): the first call only flips the captured
`initialized` variable; every later call sets `hasUnsavedAnnotations`. -/
def onAnnotationsChange (s : AppState) : AppState :=
  match s.handlerInit with
  | none => s
  | some false => { s with handlerInit := some true }
  | some true => { s with hasUnsavedAnnotations := true }

/-- Synchronous prologue of `load` (index.js lines 46-62): if an instance
already exists it is unloaded and the dirty flag cleared (destroying the
old observer with it); then `isAlreadyLoaded` is set and `PSPDFKit.load`
is invoked on the given bytes. -/
def loadSync (doc : Bytes) (s : AppState) : AppState × List Action :=
  if s.isAlreadyLoaded then
    ({ hasUnsavedAnnotations := false
       isAlreadyLoaded := true
       dragDropActive := s.dragDropActive
       handlerInit := none },
     [Action.unloadInstance, Action.createInstance doc])
  else
    ({ s with isAlreadyLoaded := true }, [Action.createInstance doc])

/-- Resolution of the `PSPDFKit.load` promise. -/
inductive LoadOutcome where
  | success : LoadOutcome
  | failure : LoadOutcome
deriving DecidableEq, Repr

/-- Continuation of `load` (index.js lines 62-69): on success a fresh
observer is attached (its `initialized` starts at false); on rejection
the error is only logged. -/
def loadAsync (outc : LoadOutcome) (s : AppState) : AppState × List Action :=
  match outc with
  | LoadOutcome.success => ({ s with handlerInit := some false }, [])
  | LoadOutcome.failure => (s, [Action.logError])

/-- The whole `load` function (index.js lines 46-70) for a given promise
outcome. -/
def load (doc : Bytes) (outc : LoadOutcome) (s : AppState) : AppState × List Action :=
  let p := loadSync doc s
  let q := loadAsync outc p.1
  (q.1, p.2 ++ q.2)

/-- `shouldPreventLoad` (index.js lines 81-88), with the user's answer to
`window.confirm` made explicit. -/
def shouldPreventLoad (confirmAnswer : Bool) (s : AppState) : Bool :=
  s.hasUnsavedAnnotations && !confirmAnswer

/-- The confirm dialog is shown exactly when the dirty flag is set
(the `&&` in `shouldPreventLoad` short-circuits otherwise). -/
def confirmActions (s : AppState) : List Action :=
  if s.hasUnsavedAnnotations then [Action.confirmPrompt] else []

/-- `destroyDragAndDrop` (index.js lines 110-116): tears the drag-and-drop
listener down; a no-op when it is already gone. -/
def destroyDragAndDrop (s : AppState) : AppState :=
  { s with dragDropActive := false }

/-- A top-level stimulus to the page, with the outcomes of its
asynchronous parts.  `dropFiles` is the drag-and-drop `onDrop` callback
(lines 95-108, `readOk` = whether `processFiles` resolved); `pickFile` is
the `#selectFile` change listener (lines 126-138, `nonempty` = whether
any file was selected); `annotChange` is a firing of the attached
observer; `remoteFetch` is `callWs` (lines 145-180) with the response
body's chunk list; `clickDownload` is `download` (lines 186-206). -/
inductive Event where
  | dropFiles (bytes : Bytes) (readOk : Bool) (outc : LoadOutcome) (confirmAnswer : Bool) : Event
  | pickFile (bytes : Bytes) (nonempty : Bool) (readOk : Bool) (outc : LoadOutcome) (confirmAnswer : Bool) : Event
  | annotChange : Event
  | remoteFetch (chunks : List Bytes) (fetchOk : Bool) (outc : LoadOutcome) : Event
  | clickDownload (bytes : Bytes) (fetchOk : Bool) : Event
deriving DecidableEq, Repr

/-- Draining the response stream in `callWs`: each chunk read from the
reader is enqueued into the new stream, so the resulting ArrayBuffer is
the concatenation of the chunks. -/
def drainStream (chunks : List Bytes) : Bytes :=
  chunks.flatten

/-- `new Blob([blob])` in `download`: a blob built from a list of parts
holds the concatenation of the parts' bytes. -/
def blobOfParts (parts : List Bytes) : Bytes :=
  parts.flatten

/-- One top-level event handled to completion on the UI thread. -/
def step (s : AppState) : Event → AppState × List Action
  | Event.dropFiles bytes readOk outc confirmAnswer =>
    if s.dragDropActive = false then (s, [])
    else if shouldPreventLoad confirmAnswer s then (s, confirmActions s)
    else if readOk then
      let p := load bytes outc (destroyDragAndDrop s)
      (p.1, confirmActions s ++ p.2)
    else (s, confirmActions s ++ [Action.alertMsg])
  | Event.pickFile bytes nonempty readOk outc confirmAnswer =>
    if nonempty = false then (s, [])
    else if shouldPreventLoad confirmAnswer s then (s, confirmActions s)
    else if readOk then
      let p := load bytes outc (destroyDragAndDrop s)
      (p.1, confirmActions s ++ p.2)
    else (s, confirmActions s ++ [Action.alertMsg])
  | Event.annotChange => (onAnnotationsChange s, [])
  | Event.remoteFetch chunks fetchOk outc =>
    if fetchOk then load (drainStream chunks) outc s else (s, [])
  | Event.clickDownload bytes fetchOk =>
    if fetchOk then (s, [Action.downloadFile "a.pdf" (blobOfParts [bytes])])
    else (s, [])

/-- Run a sequence of events from a given state, keeping only the state. -/
def runFrom (s : AppState) (es : List Event) : AppState :=
  es.foldl (fun s e => (step s e).1) s

/-- Run a sequence of events from the initial page state. -/
def run (es : List Event) : AppState :=
  runFrom AppState.init es

/-- A session state is reachable when some event sequence produces it. -/
def Reachable (s : AppState) : Prop :=
  ∃ es : List Event, run es = s

/-! ## Helper lemmas -/

/-- `load` always leaves `isAlreadyLoaded` set, keeps the drag-and-drop
field, and clears the dirty flag exactly when an instance existed. -/
lemma load_fields (doc : Bytes) (outc : LoadOutcome) (s : AppState) :
    (load doc outc s).1.isAlreadyLoaded = true ∧
    (load doc outc s).1.dragDropActive = s.dragDropActive ∧
    (load doc outc s).1.hasUnsavedAnnotations
      = (if s.isAlreadyLoaded then false else s.hasUnsavedAnnotations) := by
  obtain ⟨d, l, dd, h⟩ := s
  cases l <;> cases outc <;>
    simp [load, loadSync, loadAsync]

/-- The action trace of `load`, by case on the prior instance. -/
lemma load_actions (doc : Bytes) (outc : LoadOutcome) (s : AppState) :
    (load doc outc s).2
      = (if s.isAlreadyLoaded then [Action.unloadInstance] else [])
        ++ [Action.createInstance doc]
        ++ (if outc = LoadOutcome.success then [] else [Action.logError]) := by
  obtain ⟨d, l, dd, h⟩ := s
  cases l <;> cases outc <;>
    simp [load, loadSync, loadAsync]

/-- The observer never clears the dirty flag and touches no other field. -/
lemma onAnnotationsChange_fields (s : AppState) :
    (s.hasUnsavedAnnotations = true →
      (onAnnotationsChange s).hasUnsavedAnnotations = true) ∧
    (onAnnotationsChange s).isAlreadyLoaded = s.isAlreadyLoaded ∧
    (onAnnotationsChange s).dragDropActive = s.dragDropActive := by
  obtain ⟨d, l, dd, h⟩ := s
  rcases h with _ | b
  · simp [onAnnotationsChange]
  · cases b <;> simp [onAnnotationsChange]

/-- Unfolding one event of a run. -/
lemma runFrom_cons (s : AppState) (e : Event) (es : List Event) :
    runFrom s (e :: es) = runFrom (step s e).1 es := rfl

/-- Firing the observer repeatedly after its first call has been consumed:
any further event sets the dirty flag, which then sticks. -/
lemma runFrom_annot_consumed (n : Nat) (d l dd : Bool) :
    runFrom ⟨d, l, dd, some true⟩ (List.replicate n Event.annotChange)
      = ⟨d || decide (1 ≤ n), l, dd, some true⟩ := by
  induction n generalizing d with
  | zero => simp [runFrom]
  | succ n ih =>
    rw [List.replicate_succ, runFrom_cons]
    have hs : (step ⟨d, l, dd, some true⟩ Event.annotChange).1
        = ⟨true, l, dd, some true⟩ := by
      simp [step, onAnnotationsChange]
    rw [hs, ih]
    simp

/-- Firing a freshly attached observer `n` times: the first event is
swallowed, the dirty flag ends up set exactly when `n ≥ 2`. -/
lemma runFrom_annot_fresh (n : Nat) (d l dd : Bool) :
    runFrom ⟨d, l, dd, some false⟩ (List.replicate n Event.annotChange)
      = ⟨d || decide (2 ≤ n), l, dd,
         if n = 0 then some false else some true⟩ := by
  cases n with
  | zero => simp [runFrom]
  | succ n =>
    rw [List.replicate_succ, runFrom_cons]
    have hs : (step ⟨d, l, dd, some false⟩ Event.annotChange).1
        = ⟨d, l, dd, some true⟩ := by
      simp [step, onAnnotationsChange]
    rw [hs, runFrom_annot_consumed]
    simp [Nat.succ_le_succ_iff]

/-- Session invariant: the dirty flag, or an attached observer, implies a
load already happened (`isAlreadyLoaded` is set). -/
def Inv (s : AppState) : Prop :=
  (s.hasUnsavedAnnotations = true → s.isAlreadyLoaded = true) ∧
  (s.handlerInit ≠ none → s.isAlreadyLoaded = true)

instance (s : AppState) : Decidable (Inv s) := by
  unfold Inv
  infer_instance

/-- Every top-level event preserves the session invariant. -/
lemma inv_step (s : AppState) (e : Event) (h : Inv s) : Inv (step s e).1 := by
  obtain ⟨d, l, dd, hi⟩ := s
  cases e with
  | dropFiles b ok outc ca =>
    rcases hi with _ | b' <;> [skip; cases b'] <;>
      cases d <;> cases l <;> cases dd <;> cases ok <;> cases outc <;> cases ca <;>
      simp_all [step, load, loadSync, loadAsync, shouldPreventLoad,
        confirmActions, destroyDragAndDrop, Inv]
  | pickFile b ne ok outc ca =>
    rcases hi with _ | b' <;> [skip; cases b'] <;>
      cases d <;> cases l <;> cases dd <;> cases ne <;> cases ok <;>
      cases outc <;> cases ca <;>
      simp_all [step, load, loadSync, loadAsync, shouldPreventLoad,
        confirmActions, destroyDragAndDrop, Inv]
  | annotChange =>
    rcases hi with _ | b' <;> [skip; cases b'] <;>
      cases d <;> cases l <;>
      simp_all [step, onAnnotationsChange, Inv]
  | remoteFetch chunks fetchOk outc =>
    rcases hi with _ | b' <;> [skip; cases b'] <;>
      cases d <;> cases l <;> cases fetchOk <;> cases outc <;>
      simp_all [step, load, loadSync, loadAsync, Inv]
  | clickDownload b fetchOk =>
    cases fetchOk <;> simp_all [step, Inv]

/-- The invariant holds along every run. -/
lemma inv_runFrom (es : List Event) (s : AppState) (h : Inv s) :
    Inv (runFrom s es) := by
  induction es generalizing s with
  | nil => exact h
  | cons e es ih => exact ih _ (inv_step s e h)

/-- Every reachable session state satisfies the invariant. -/
lemma inv_reachable (s : AppState) (h : Reachable s) : Inv s := by
  obtain ⟨es, rfl⟩ := h
  exact inv_runFrom es AppState.init (by decide)

/-! ## Claim theorems -/

/-- Claim C4: when the dirty flag is set, a load attempt through the
drag-and-drop path (while its listener is installed) or through the file
picker (with a file selected) first shows the confirmation dialog; if the
user declines (`confirmAnswer = false`) the attempt aborts with no state
change: the state is returned untouched and the only emitted action is
the prompt itself — no unload, no instance creation, no flag change. -/
theorem dirty_decline_blocks_drop_and_pick (s : AppState) (b : Bytes)
    (ok : Bool) (outc : LoadOutcome)
    (hd : s.hasUnsavedAnnotations = true) :
    (s.dragDropActive = true →
      step s (Event.dropFiles b ok outc false)
        = (s, [Action.confirmPrompt])) ∧
    step s (Event.pickFile b true ok outc false)
      = (s, [Action.confirmPrompt]) := by
  constructor
  · intro ha
    simp [step, ha, shouldPreventLoad, hd, confirmActions]
  · simp [step, shouldPreventLoad, hd, confirmActions]

/-- Witness for C4 at a concrete dirty session state. -/
theorem dirty_decline_blocks_drop_and_pick_witness :
    step (AppState.mk true true true (some true))
        (Event.dropFiles [1] true LoadOutcome.success false)
      = (AppState.mk true true true (some true), [Action.confirmPrompt]) :=
  (dirty_decline_blocks_drop_and_pick (AppState.mk true true true (some true))
    [1] true LoadOutcome.success rfl).1 rfl

/-- Claim C5: a call to `load` while an instance exists emits exactly one
unload, and it precedes the creation of the new instance; the dirty flag
is cleared by that synchronous teardown; a call to `load` with no prior
instance emits no unload; and across every top-level event, the dirty
flag can only go from set to cleared when an unload was performed. -/
theorem load_teardown_exactly_once :
    (∀ (doc : Bytes) (outc : LoadOutcome) (s : AppState),
      s.isAlreadyLoaded = true →
      (∃ rest, (load doc outc s).2
          = Action.unloadInstance :: Action.createInstance doc :: rest) ∧
      (load doc outc s).2.count Action.unloadInstance = 1 ∧
      (loadSync doc s).1.hasUnsavedAnnotations = false) ∧
    (∀ (doc : Bytes) (outc : LoadOutcome) (s : AppState),
      s.isAlreadyLoaded = false →
      (load doc outc s).2.count Action.unloadInstance = 0) ∧
    (∀ (s : AppState) (e : Event),
      s.hasUnsavedAnnotations = true →
      (step s e).1.hasUnsavedAnnotations = false →
      Action.unloadInstance ∈ (step s e).2) := by
  refine ⟨?_, ?_, ?_⟩
  · intro doc outc s h
    obtain ⟨d, l, dd, hi⟩ := s
    cases l
    · exact absurd h (by simp)
    · cases outc <;>
        simp [load, loadSync, loadAsync, List.count_cons]
  · intro doc outc s h
    obtain ⟨d, l, dd, hi⟩ := s
    cases l
    · cases outc <;>
        simp [load, loadSync, loadAsync, List.count_cons]
    · exact absurd h (by simp)
  · intro s e hd hcleared
    obtain ⟨d, l, dd, hi⟩ := s
    cases e with
    | dropFiles b ok outc ca =>
      cases d <;> cases l <;> cases dd <;> cases ok <;> cases outc <;> cases ca <;>
        simp_all [step, load, loadSync, loadAsync, shouldPreventLoad,
          confirmActions, destroyDragAndDrop]
    | pickFile b ne ok outc ca =>
      cases d <;> cases l <;> cases ne <;> cases ok <;> cases outc <;> cases ca <;>
        simp_all [step, load, loadSync, loadAsync, shouldPreventLoad,
          confirmActions, destroyDragAndDrop]
    | annotChange =>
      rcases hi with _ | b' <;> [skip; cases b'] <;>
        simp_all [step, onAnnotationsChange]
    | remoteFetch chunks fetchOk outc =>
      cases d <;> cases l <;> cases fetchOk <;> cases outc <;>
        simp_all [step, load, loadSync, loadAsync]
    | clickDownload b fetchOk =>
      cases fetchOk <;> simp_all [step]

/-- Witness for C5 at a concrete loaded, dirty session state. -/
theorem load_teardown_exactly_once_witness :
    (∃ rest, (load [7] LoadOutcome.success (AppState.mk true true false (some true))).2
        = Action.unloadInstance :: Action.createInstance [7] :: rest) ∧
    (load [7] LoadOutcome.success (AppState.mk true true false (some true))).2.count
        Action.unloadInstance = 1 ∧
    (loadSync [7] (AppState.mk true true false (some true))).1.hasUnsavedAnnotations = false :=
  load_teardown_exactly_once.1 [7] LoadOutcome.success
    (AppState.mk true true false (some true)) rfl

/-- The full state produced by a successful `load`. -/
lemma load_success_state (doc : Bytes) (s : AppState) :
    (load doc LoadOutcome.success s).1
      = ⟨if s.isAlreadyLoaded then false else s.hasUnsavedAnnotations,
         true, s.dragDropActive, some false⟩ := by
  obtain ⟨d, l, dd, hi⟩ := s
  cases l <;> simp [load, loadSync, loadAsync]

/-- Claim C6: every successful `load` attaches a fresh observer whose
skip-one counter starts over (`handlerInit = some false`), and firing
that observer `n` times leaves the dirty flag exactly at its post-load
value for `n ≤ 1` and sets it for every `n ≥ 2`: the observer ignores
precisely its first event and records every subsequent one. -/
theorem observer_skips_exactly_first (s : AppState) (doc : Bytes) (n : Nat) :
    (load doc LoadOutcome.success s).1.handlerInit = some false ∧
    (runFrom (load doc LoadOutcome.success s).1
        (List.replicate n Event.annotChange)).hasUnsavedAnnotations
      = ((load doc LoadOutcome.success s).1.hasUnsavedAnnotations
          || decide (2 ≤ n)) := by
  rw [load_success_state]
  refine ⟨rfl, ?_⟩
  rw [runFrom_annot_fresh]

/-- Claim C8: a successful download action emits exactly one file, named
`a.pdf`, whose content is byte-identical to the fetched resource: the
bytes pass through `new Blob([blob])` unmodified, and the session state
is untouched. -/
theorem download_byte_identical (s : AppState) (bytes : Bytes) :
    step s (Event.clickDownload bytes true)
      = (s, [Action.downloadFile "a.pdf" bytes]) := by
  simp [step, blobOfParts]

/-- Claim C9: `isAlreadyLoaded` is monotone: it is false initially, the
synchronous prologue of `load` already sets it (before the asynchronous
viewer creation resolves), it is still set after a failed load, and no
top-level event ever resets it to false. -/
theorem isAlreadyLoaded_monotone :
    AppState.init.isAlreadyLoaded = false ∧
    (∀ (doc : Bytes) (s : AppState),
      (loadSync doc s).1.isAlreadyLoaded = true) ∧
    (∀ (doc : Bytes) (s : AppState),
      (load doc LoadOutcome.failure s).1.isAlreadyLoaded = true) ∧
    (∀ (s : AppState) (e : Event),
      s.isAlreadyLoaded = true → (step s e).1.isAlreadyLoaded = true) := by
  refine ⟨rfl, ?_, ?_, ?_⟩
  · intro doc s
    obtain ⟨d, l, dd, hi⟩ := s
    cases l <;> simp [loadSync]
  · intro doc s
    exact (load_fields doc LoadOutcome.failure s).1
  · intro s e h
    obtain ⟨d, l, dd, hi⟩ := s
    cases e with
    | dropFiles b ok outc ca =>
      cases d <;> cases l <;> cases dd <;> cases ok <;> cases outc <;> cases ca <;>
        simp_all [step, load, loadSync, loadAsync, shouldPreventLoad,
          confirmActions, destroyDragAndDrop]
    | pickFile b ne ok outc ca =>
      cases d <;> cases l <;> cases ne <;> cases ok <;> cases outc <;> cases ca <;>
        simp_all [step, load, loadSync, loadAsync, shouldPreventLoad,
          confirmActions, destroyDragAndDrop]
    | annotChange =>
      rcases hi with _ | b' <;> [skip; cases b'] <;>
        simp_all [step, onAnnotationsChange]
    | remoteFetch chunks fetchOk outc =>
      cases l <;> cases fetchOk <;> cases outc <;>
        simp_all [step, load, loadSync, loadAsync]
    | clickDownload b fetchOk =>
      cases fetchOk <;> simp_all [step]

/-- Witness for C9: a loaded state stays loaded across an event. -/
theorem isAlreadyLoaded_monotone_witness :
    (step (AppState.mk false true true none) Event.annotChange).1.isAlreadyLoaded
      = true :=
  isAlreadyLoaded_monotone.2.2.2 (AppState.mk false true true none)
    Event.annotChange rfl

/-- Claim C10: drag-and-drop is one-shot.  A successful file read through
the drop path or the picker path destroys the drag-and-drop listener; a
drop while the listener is gone does nothing at all (no state change, no
action, hence no load); and no event ever re-installs the listener. -/
theorem dragDrop_one_shot :
    (∀ (s : AppState) (b : Bytes) (outc : LoadOutcome) (ca : Bool),
      shouldPreventLoad ca s = false →
      (step s (Event.dropFiles b true outc ca)).1.dragDropActive = false ∧
      (step s (Event.pickFile b true true outc ca)).1.dragDropActive = false) ∧
    (∀ (s : AppState) (b : Bytes) (ok : Bool) (outc : LoadOutcome) (ca : Bool),
      s.dragDropActive = false →
      step s (Event.dropFiles b ok outc ca) = (s, [])) ∧
    (∀ (s : AppState) (e : Event),
      s.dragDropActive = false → (step s e).1.dragDropActive = false) := by
  refine ⟨?_, ?_, ?_⟩
  · intro s b outc ca hp
    obtain ⟨d, l, dd, hi⟩ := s
    constructor <;>
      cases d <;> cases l <;> cases dd <;> cases outc <;> cases ca <;>
      simp_all [step, load, loadSync, loadAsync, shouldPreventLoad,
        confirmActions, destroyDragAndDrop]
  · intro s b ok outc ca h
    simp [step, h]
  · intro s e h
    obtain ⟨d, l, dd, hi⟩ := s
    cases e with
    | dropFiles b ok outc ca =>
      cases d <;> cases l <;> cases dd <;> cases ok <;> cases outc <;> cases ca <;>
        simp_all [step, load, loadSync, loadAsync, shouldPreventLoad,
          confirmActions, destroyDragAndDrop]
    | pickFile b ne ok outc ca =>
      cases d <;> cases l <;> cases dd <;> cases ne <;> cases ok <;> cases outc <;> cases ca <;>
        simp_all [step, load, loadSync, loadAsync, shouldPreventLoad,
          confirmActions, destroyDragAndDrop]
    | annotChange =>
      rcases hi with _ | b' <;> [skip; cases b'] <;>
        simp_all [step, onAnnotationsChange]
    | remoteFetch chunks fetchOk outc =>
      cases l <;> cases fetchOk <;> cases outc <;>
        simp_all [step, load, loadSync, loadAsync]
    | clickDownload b fetchOk =>
      cases fetchOk <;> simp_all [step]

/-- Witness for C10: after the listener is destroyed, a drop is a no-op. -/
theorem dragDrop_one_shot_witness :
    step (AppState.mk false true false (some false))
        (Event.dropFiles [1] true LoadOutcome.success true)
      = (AppState.mk false true false (some false), []) :=
  dragDrop_one_shot.2.1 (AppState.mk false true false (some false))
    [1] true LoadOutcome.success true rfl

/-- Claim C7: a successful remote fetch hands exactly the drained stream
bytes (the concatenation of the response chunks) to `load`; afterwards,
from any reachable state, an instance is marked loaded and the dirty
flag is false. -/
theorem remoteFetch_loads_drained_bytes (s : AppState) (chunks : List Bytes)
    (hr : Reachable s) :
    Action.createInstance (drainStream chunks)
      ∈ (step s (Event.remoteFetch chunks true LoadOutcome.success)).2 ∧
    (step s (Event.remoteFetch chunks true LoadOutcome.success)).1.isAlreadyLoaded
      = true ∧
    (step s (Event.remoteFetch chunks true LoadOutcome.success)).1.hasUnsavedAnnotations
      = false := by
  have hinv := inv_reachable s hr
  have hs : step s (Event.remoteFetch chunks true LoadOutcome.success)
      = load (drainStream chunks) LoadOutcome.success s := by
    simp [step]
  rw [hs]
  refine ⟨?_, (load_fields _ _ _).1, ?_⟩
  · rw [load_actions]
    cases s.isAlreadyLoaded <;> simp
  · rw [(load_fields _ _ _).2.2]
    rcases h : s.isAlreadyLoaded with _ | _
    · have hd : s.hasUnsavedAnnotations = false := by
        rcases hd : s.hasUnsavedAnnotations with _ | _
        · rfl
        · exact absurd (hinv.1 hd) (by simp [h])
      simp [hd]
    · simp

/-- Witness for C7 from the reachable initial state. -/
theorem remoteFetch_loads_drained_bytes_witness :
    Action.createInstance (drainStream [[1], [2, 3]])
      ∈ (step AppState.init
          (Event.remoteFetch [[1], [2, 3]] true LoadOutcome.success)).2 ∧
    (step AppState.init
        (Event.remoteFetch [[1], [2, 3]] true LoadOutcome.success)).1.isAlreadyLoaded
      = true ∧
    (step AppState.init
        (Event.remoteFetch [[1], [2, 3]] true LoadOutcome.success)).1.hasUnsavedAnnotations
      = false :=
  remoteFetch_loads_drained_bytes AppState.init [[1], [2, 3]] ⟨[], rfl⟩

/-- Counterexample to Claim C1: the dirty state
`⟨true, true, false, some true⟩` is reachable (drop a file, then two
observer events), and the remote-fetch path (`callWs`) then tears the
instance down and clears the dirty flag without ever showing the
confirmation dialog — the gate does not cover the remote-fetch load
path. -/
theorem confirmation_gate_bypassed_cex :
    run [Event.dropFiles [1] true LoadOutcome.success true,
         Event.annotChange, Event.annotChange]
      = AppState.mk true true false (some true) ∧
    (step (AppState.mk true true false (some true))
        (Event.remoteFetch [[2]] true LoadOutcome.success)).1.hasUnsavedAnnotations
      = false ∧
    Action.unloadInstance
      ∈ (step (AppState.mk true true false (some true))
          (Event.remoteFetch [[2]] true LoadOutcome.success)).2 ∧
    Action.confirmPrompt
      ∉ (step (AppState.mk true true false (some true))
          (Event.remoteFetch [[2]] true LoadOutcome.success)).2 := by
  decide

/-- Claim C1 as amended: from a dirty state, the drag-and-drop and
file-picker load paths do pass through the confirmation gate (declining
leaves the state untouched), but the remote-fetch path bypasses it: it
clears the dirty flag with no confirmation prompt. -/
theorem confirmation_gate_drop_pick_only (s : AppState) (b : Bytes)
    (ok : Bool) (outc : LoadOutcome) (chunks : List Bytes)
    (hd : s.hasUnsavedAnnotations = true) :
    (step s (Event.dropFiles b ok outc false)).1 = s ∧
    (step s (Event.pickFile b true ok outc false)).1 = s ∧
    (s.isAlreadyLoaded = true →
      (step s (Event.remoteFetch chunks true outc)).1.hasUnsavedAnnotations
        = false ∧
      Action.confirmPrompt
        ∉ (step s (Event.remoteFetch chunks true outc)).2) := by
  refine ⟨?_, ?_, ?_⟩
  · rcases ha : s.dragDropActive with _ | _
    · simp [step, ha]
    · simp [step, ha, shouldPreventLoad, hd, confirmActions]
  · simp [step, shouldPreventLoad, hd, confirmActions]
  · intro hl
    have hs : step s (Event.remoteFetch chunks true outc)
        = load (drainStream chunks) outc s := by
      simp [step]
    rw [hs]
    constructor
    · rw [(load_fields _ _ _).2.2, hl]
      simp
    · rw [load_actions]
      cases s.isAlreadyLoaded <;> cases outc <;> simp

/-- Witness for the amended C1 at a concrete dirty, loaded state. -/
theorem confirmation_gate_drop_pick_only_witness :
    (step (AppState.mk true true true (some true))
        (Event.dropFiles [1] true LoadOutcome.success false)).1
      = AppState.mk true true true (some true) ∧
    (step (AppState.mk true true true (some true))
        (Event.pickFile [1] true true LoadOutcome.success false)).1
      = AppState.mk true true true (some true) ∧
    ((AppState.mk true true true (some true)).isAlreadyLoaded = true →
      (step (AppState.mk true true true (some true))
          (Event.remoteFetch [[2]] true LoadOutcome.success)).1.hasUnsavedAnnotations
        = false ∧
      Action.confirmPrompt
        ∉ (step (AppState.mk true true true (some true))
            (Event.remoteFetch [[2]] true LoadOutcome.success)).2) :=
  confirmation_gate_drop_pick_only (AppState.mk true true true (some true))
    [1] true LoadOutcome.success [[2]] rfl

/-- Counterexample to Claim C2: from the initial (reachable, not loaded)
state, a `load` whose viewer promise rejects still leaves
`isAlreadyLoaded = true`: the flag does not keep its prior value, and
the session is marked loaded although no instance was created. -/
theorem load_failure_changes_loaded_cex :
    AppState.init.isAlreadyLoaded = false ∧
    (load [1] LoadOutcome.failure AppState.init).1.isAlreadyLoaded = true := by
  decide

/-- Claim C2 as amended: when the viewer's load promise rejects, the
error is logged and nothing more happens in the rejection handler — but
the synchronous prologue of `load` has already run: `isAlreadyLoaded` is
true after a failed load, the dirty flag is cleared exactly when a prior
instance was torn down (and otherwise keeps its prior value), and no
observer is attached. -/
theorem load_failure_state (doc : Bytes) (s : AppState) :
    (load doc LoadOutcome.failure s).1
      = ⟨if s.isAlreadyLoaded then false else s.hasUnsavedAnnotations,
         true, s.dragDropActive,
         if s.isAlreadyLoaded then none else s.handlerInit⟩ ∧
    Action.logError ∈ (load doc LoadOutcome.failure s).2 := by
  obtain ⟨d, l, dd, hi⟩ := s
  cases l <;> simp [load, loadSync, loadAsync]

/-- Counterexample to Claim C3: if the viewer fires two initialization
events during the first successful load, the dirty flag is true
immediately after the load — the observer only swallows one event, not
every initialization event. -/
theorem first_load_two_events_dirty_cex :
    (run [Event.dropFiles [1] true LoadOutcome.success true,
          Event.annotChange, Event.annotChange]).hasUnsavedAnnotations
      = true := by
  decide

/-- Claim C3 as amended: after the first successful load followed by `n`
observer events, the dirty flag is false exactly when `n ≤ 1`: it stays
false for the single initialization event the library fires, and becomes
true as soon as a second event arrives. -/
theorem first_load_dirty_after_n_events (b : Bytes) (n : Nat) :
    (run (Event.dropFiles b true LoadOutcome.success true
        :: List.replicate n Event.annotChange)).hasUnsavedAnnotations
      = decide (2 ≤ n) := by
  have h1 : (step AppState.init (Event.dropFiles b true LoadOutcome.success true)).1
      = ⟨false, true, false, some false⟩ := by
    simp [step, load, loadSync, loadAsync, shouldPreventLoad,
      confirmActions, destroyDragAndDrop, AppState.init]
  rw [run, runFrom_cons, h1, runFrom_annot_fresh]
  simp

end PdfApp
